import Mathlib

/-!
# Todo.jsx — the Todo Manager component

A shallow embedding of `src/components/Todo.jsx` (a React function component
over axios) and the theorems settling the claims about it.

* JavaScript values that flow through the component (form input, JSON response
  bodies) are embedded as `JsVal`.
* The component's six `useState` cells are the record `Component`.
* An event handler is a `Handler`: it reads the state captured by the render
  that created it (`Env.props`), queues writes through the `set…` functions
  (`World.comp`), issues axios requests (`World.sent`) and completes normally
  or by throwing.  The result of the n-th awaited request of a run is
  `Env.http n`, so a statement quantified over `http` covers every backend.
* While a handler awaits a request React renders the state queued so far;
  `messageBanner` is what that render makes of the message.
* `console.error` has no effect on the component and is left out.
-/

namespace TodoApp

/-! ## JavaScript values -/

/-- The JavaScript values the component handles.  A number is held as the
text `Number.prototype.toString` gives it (`'7'`, `'0.5'`, `'1e+21'`,
`'NaN'`): that text and its truthiness are all the component observes of a
number, and different numbers have different texts, except `0` and `-0`,
which both print `'0'` and are both falsy.  Objects are association lists of
own properties. -/
inductive JsVal where
  | undefined
  | null
  | bool (b : Bool)
  | num (text : String)
  | str (s : String)
  | arr (items : List JsVal)
  | obj (fields : List (String × JsVal))

namespace JsVal

/-- ToBoolean: what `!v`, `v && …`, `v || …` and `v ? … : …` test. -/
def truthy : JsVal → Bool
  | undefined => false
  | null => false
  | bool b => b
  | num text => text != "0" && text != "NaN"
  | str s => s != ""
  | arr _ => true
  | obj _ => true

/-- The operator `a ?? b`. -/
def coalesce (a b : JsVal) : JsVal :=
  match a with
  | undefined => b
  | null => b
  | _ => a

/-- The operator `a || b`. -/
def orElse (a b : JsVal) : JsVal :=
  if a.truthy then a else b

/-- The access `v?.key` for the property names the component reads (`id`,
`_id`, `title`, `description`, `completed`, `url`): an own property of an
object, `undefined` when it is missing or when `v` is not an object. -/
def prop (v : JsVal) (key : String) : JsVal :=
  match v with
  | obj fields => (fields.lookup key).getD undefined
  | _ => undefined

mutual
/-- ToString, as applied by a template literal `${v}` and by `v.toString()`
on a non-nullish value (objects print through `Object.prototype.toString`). -/
def toStr : JsVal → String
  | undefined => "undefined"
  | null => "null"
  | bool b => if b then "true" else "false"
  | num text => text
  | str s => s
  | arr items => joinItems items
  | obj _ => "[object Object]"
/-- The text of `Array.prototype.join` with the default separator. -/
def joinItems : List JsVal → String
  | [] => ""
  | [x] => itemStr x
  | x :: y :: rest => itemStr x ++ "," ++ joinItems (y :: rest)
/-- The text of one array element inside `join`: nullish elements are empty. -/
def itemStr : JsVal → String
  | undefined => ""
  | null => ""
  | bool b => if b then "true" else "false"
  | num text => text
  | str s => s
  | arr items => joinItems items
  | obj _ => "[object Object]"
end

end JsVal

/-! ## Strings -/

/-- ECMAScript WhiteSpace and LineTerminator code points, the characters
`String.prototype.trim` strips. -/
def isWhiteSpace (c : Char) : Bool :=
  let n := c.toNat
  n == 0x09 || n == 0x0A || n == 0x0B || n == 0x0C || n == 0x0D || n == 0x20 ||
  n == 0xA0 || n == 0x1680 || (0x2000 ≤ n && n ≤ 0x200A) || n == 0x2028 ||
  n == 0x2029 || n == 0x202F || n == 0x205F || n == 0x3000 || n == 0xFEFF

/-- Strip leading and trailing white space from a character list. -/
def trimChars (l : List Char) : List Char :=
  ((l.dropWhile isWhiteSpace).reverse.dropWhile isWhiteSpace).reverse

/-- The method `String.prototype.trim`. -/
def trim (s : String) : String :=
  String.mk (trimChars s.data)

/-- The method `String.prototype.toLowerCase`, on the ASCII letters.  No
character outside `A`–`Z` lower-cases to one of the letters of `error`, so
the test in the banner does not depend on the rest of the case table. -/
def toLowerCase (s : String) : String :=
  String.mk (s.data.map Char.toLower)

/-- The method `String.prototype.includes`. -/
def includes (s sub : String) : Bool :=
  s.data.tails.any (fun t => sub.data.isPrefixOf t)

/-! ## Component state -/

/-- The draft held by `useState` cell `todo`; `completed` is only ever
written with a boolean (`false`, a checkbox's `checked`, or `!!…`). -/
structure Draft where
  id : JsVal
  title : JsVal
  description : JsVal
  completed : Bool

/-- The object `{ id: '', title: '', description: '', completed: false }`. -/
def emptyDraft : Draft :=
  { id := .str "", title := .str "", description := .str "", completed := false }

/-- The draft as the JavaScript object that axios serialises. -/
def Draft.toJs (d : Draft) : JsVal :=
  .obj [("id", d.id), ("title", d.title), ("description", d.description),
        ("completed", .bool d.completed)]

/-- The six `useState` cells of the component. -/
structure Component where
  todos : JsVal
  todo : Draft
  idToFetch : String
  fetchedTodo : JsVal
  message : JsVal
  editMode : Bool

/-- The state after the first render, before the mount effect runs. -/
def initial : Component :=
  { todos := .arr [], todo := emptyDraft, idToFetch := "", fetchedTodo := .null,
    message := .str "", editMode := false }

/-! ## Requests and handlers -/

inductive Method where
  | GET | POST | PUT | DELETE
  deriving DecidableEq, Repr

/-- One axios call: method, URL and request body. -/
structure Request where
  method : Method
  url : String
  body : Option JsVal

/-- How an awaited axios call settles: resolved with `res.data`, or rejected. -/
inductive HttpResult where
  | ok (data : JsVal)
  | failed

/-- How a piece of code completes. -/
inductive Completion (α : Type) where
  | normal (value : α)
  | thrown

/-- What a running handler has done so far: the queued state and the
requests issued, oldest first. -/
structure World where
  comp : Component
  sent : List Request

/-- What a handler is given: the imported `config`, the state captured by
its closure, and the backend. -/
structure Env where
  config : JsVal
  props : Component
  http : Nat → HttpResult

/-- Code of the component: it runs against an `Env` from a `World`. -/
def Handler (α : Type) : Type :=
  Env → World → Completion α × World

namespace Handler

/-- Return a value. -/
def ret {α : Type} (a : α) : Handler α :=
  fun _ w => (.normal a, w)

/-- Sequencing; a throw skips the rest. -/
def andThen {α β : Type} (x : Handler α) (f : α → Handler β) : Handler β :=
  fun e w =>
    match x e w with
    | (.normal a, w1) => f a e w1
    | (.thrown, w1) => (.thrown, w1)

/-- The statement `try { body } catch (error) { handler }`. -/
def tryCatch {α : Type} (body : Handler α) (handler : Unit → Handler α) : Handler α :=
  fun e w =>
    match body e w with
    | (.normal a, w1) => (.normal a, w1)
    | (.thrown, w1) => handler () e w1

/-- The statement `throw`. -/
def throw {α : Type} : Handler α :=
  fun _ w => (.thrown, w)

instance : Monad Handler where
  pure := ret
  bind := andThen

instance : MonadExcept Unit Handler where
  throw := fun _ => Handler.throw
  tryCatch := Handler.tryCatch

end Handler

/-- The result of running a handler to completion. -/
structure Outcome where
  completion : Completion Unit
  state : Component
  requests : List Request

/-- Run a handler created by a render of state `c`. -/
def run (h : Handler Unit) (config : JsVal) (http : Nat → HttpResult) (c : Component) :
    Outcome :=
  match h { config := config, props := c, http := http } { comp := c, sent := [] } with
  | (r, w) => { completion := r, state := w.comp, requests := w.sent }

/-- Read the imported `config`. -/
def getConfig : Handler JsVal :=
  fun e w => (.normal e.config, w)

/-- Read the state captured by the closure. -/
def getProps : Handler Component :=
  fun e w => (.normal e.props, w)

/-- Apply a state update. -/
def modifyComp (f : Component → Component) : Handler Unit :=
  fun _ w => (.normal (), { w with comp := f w.comp })

def setTodos (v : JsVal) : Handler Unit :=
  modifyComp fun c => { c with todos := v }

def setTodo (d : Draft) : Handler Unit :=
  modifyComp fun c => { c with todo := d }

def setIdToFetch (s : String) : Handler Unit :=
  modifyComp fun c => { c with idToFetch := s }

def setFetchedTodo (v : JsVal) : Handler Unit :=
  modifyComp fun c => { c with fetchedTodo := v }

def setMessage (v : JsVal) : Handler Unit :=
  modifyComp fun c => { c with message := v }

def setEditMode (b : Bool) : Handler Unit :=
  modifyComp fun c => { c with editMode := b }

/-- The awaited call `axios.<method>(url, body)`: the request is recorded and
settles as the backend decides; the value is `res.data`. -/
def axios (method : Method) (url : String) (body : Option JsVal) : Handler JsVal :=
  fun e w =>
    let w1 : World := { w with sent := w.sent ++ [{ method := method, url := url, body := body }] }
    match e.http w.sent.length with
    | .ok data => (.normal data, w1)
    | .failed => (.thrown, w1)

/-! ## The component's code -/

/-- Line 15: the constant `baseUrl`, `config.url` followed by `/todoapi` when
`config && config.url` is truthy and `/api/todoapi` otherwise. -/
def baseUrlOf (config : JsVal) : String :=
  if (if config.truthy then config.prop "url" else config).truthy then
    (config.prop "url").toStr ++ "/todoapi"
  else "/api/todoapi"

def baseUrl : Handler String := do
  return baseUrlOf (← getConfig)

def fetchAllTodos : Handler Unit := do
  try
    let data ← axios .GET ((← baseUrl) ++ "/all") none
    setTodos (data.orElse (.arr []))
    setMessage (.str "")
  catch _ =>
    setMessage (.str "Failed to fetch todos.")

/-- The mount effect of `useEffect(…, [])`. -/
def mount : Handler Unit := do
  try fetchAllTodos catch _ => pure ()

/-- The four inputs of the form, by their `name` attribute. -/
inductive Field where
  | id | title | description | completed

/-- The handler `handleChange(e)` for the input `name`, with `e.target.value`
and `e.target.checked`; only `completed` is a checkbox. -/
def handleChange (name : Field) (value : String) (checked : Bool) : Handler Unit :=
  modifyComp fun c =>
    match name with
    | .id => { c with todo := { c.todo with id := .str value } }
    | .title => { c with todo := { c.todo with title := .str value } }
    | .description => { c with todo := { c.todo with description := .str value } }
    | .completed => { c with todo := { c.todo with completed := checked } }

/-- The test of `validateForm`: `!todo.title || todo.title.toString().trim() === ''`. -/
def titleMissing (title : JsVal) : Bool :=
  !title.truthy || trim title.toStr == ""

def validateForm : Handler Bool := do
  let todo := (← getProps).todo
  if titleMissing todo.title then
    setMessage (.str "Please fill out the title field.")
    return false
  return true

/-- The object built by lines 52–53 of `addTodo`. -/
def addPayload (todo : Draft) : JsVal :=
  .obj ([("title", todo.title), ("description", todo.description),
         ("completed", .bool todo.completed)] ++
        (match todo.id with
         | .str "" => []
         | .null => []
         | _ => [("id", todo.id)]))

def resetForm : Handler Unit := do
  setTodo { id := .str "", title := .str "", description := .str "", completed := false }
  setEditMode false
  setMessage (.str "")

def addTodo : Handler Unit := do
  if !(← validateForm) then return
  try
    let todo := (← getProps).todo
    let payload := addPayload todo
    let _ ← axios .POST ((← baseUrl) ++ "/add") (some payload)
    setMessage (.str "Todo added successfully.")
    fetchAllTodos
    resetForm
  catch _ =>
    setMessage (.str "Error adding todo.")

def updateTodo : Handler Unit := do
  if !(← validateForm) then return
  try
    let todo := (← getProps).todo
    let _ ← axios .PUT ((← baseUrl) ++ "/update") (some todo.toJs)
    setMessage (.str "Todo updated successfully.")
    fetchAllTodos
    resetForm
  catch _ =>
    setMessage (.str "Error updating todo.")

def deleteTodo (id : JsVal) : Handler Unit := do
  try
    let data ← axios .DELETE ((← baseUrl) ++ "/delete/" ++ id.toStr) none
    setMessage (data.orElse (.str "Todo deleted."))
    fetchAllTodos
  catch _ =>
    setMessage (.str "Error deleting todo.")

/-- The statements of `deleteTodo` that have run when it first suspends after
its DELETE (lines 79–80), or all of it when the DELETE is rejected: while
the reload of line 81 is awaited, React renders the state queued so far. -/
def deleteTodoPending (id : JsVal) : Handler Unit := do
  try
    let data ← axios .DELETE ((← baseUrl) ++ "/delete/" ++ id.toStr) none
    setMessage (data.orElse (.str "Todo deleted."))
  catch _ =>
    setMessage (.str "Error deleting todo.")

def getTodoById : Handler Unit := do
  let idToFetch := (← getProps).idToFetch
  if idToFetch == "" then
    setMessage (.str "Please enter an ID to fetch.")
    return
  try
    let data ← axios .GET ((← baseUrl) ++ "/get/" ++ idToFetch) none
    setFetchedTodo data
    setMessage (.str "")
  catch _ =>
    setFetchedTodo .null
    setMessage (.str "Todo not found.")

def handleEdit (t : JsVal) : Handler Unit := do
  setTodo {
    id := ((t.prop "id").coalesce (t.prop "_id")).coalesce (.str "")
    title := (t.prop "title").coalesce (.str "")
    description := (t.prop "description").coalesce (.str "")
    completed := (t.prop "completed").truthy }
  setEditMode true
  setMessage (.str ("Editing todo with ID " ++
    (((t.prop "id").coalesce (t.prop "_id")).coalesce (.str "")).toStr))

/-! ## The rendered banner -/

/-- The message banner of the returned JSX: its class and its text. -/
structure Banner where
  className : String
  text : String

/-- The expression `message.toLowerCase().includes('error') ? 'error' : 'success'`. -/
def bannerStyle (message : String) : String :=
  if includes (toLowerCase message) "error" then "error" else "success"

/-- The JSX `{message && (<div className={…}>{message}</div>)}`: no banner
for a falsy message, a throw when a truthy message has no `toLowerCase`. -/
def messageBanner (message : JsVal) : Completion (Option Banner) :=
  if message.truthy then
    match message with
    | .str s => .normal (some { className := "message-banner " ++ bannerStyle s, text := s })
    | _ => .thrown
  else .normal none

/-! ## Vocabulary of the statements -/

/-- A value is nullish: `null`, or `undefined` as read from a missing property. -/
def Nullish (v : JsVal) : Prop :=
  v = .null ∨ v = .undefined

/-- A request is the list reload `GET {base}/all`. -/
def isReload (config : JsVal) (r : Request) : Bool :=
  r.method == .GET && r.url == baseUrlOf config ++ "/all"

/-- A request uses the given method. -/
def hasMethod (m : Method) (r : Request) : Bool :=
  r.method == m

/-- The draft id described by "the draft takes exactly the row's id, and a
missing id falls back to `_id` and then to `''`", where only a missing
property falls back. -/
def statedEditId (t : JsVal) : JsVal :=
  match t.prop "id" with
  | .undefined =>
    match t.prop "_id" with
    | .undefined => .str ""
    | v => v
  | v => v

/-- A draft whose title has been typed in, otherwise as first rendered. -/
def typedDraft : Component :=
  { initial with todo := { emptyDraft with title := .str "Buy milk" } }

/-- A state showing one row, a fetched item and a blank title in Edit mode. -/
def blankDraft : Component :=
  { todos := .arr [.obj [("id", .num "1"), ("title", .str "A"), ("description", .str ""),
      ("completed", .bool false)]]
    todo := { id := .num "1", title := .str " \t ", description := .str "d", completed := true }
    idToFetch := "1"
    fetchedTodo := .obj [("id", .num "1")]
    message := .str "Failed to fetch todos."
    editMode := true }

/-- A row whose `id` is present but `null`, next to a usable `_id`. -/
def nullIdRow : JsVal :=
  .obj [("id", .null), ("_id", .str "65f0"), ("title", .str "A"), ("completed", .num "1")]

/-- A response body of `GET /all` with two rows. -/
def listedRows : JsVal :=
  .arr [.obj [("id", .num "1"), ("title", .str "A"), ("description", .str ""),
          ("completed", .bool false)],
        .obj [("_id", .str "65f0"), ("title", .str "B"), ("completed", .bool true)]]

/-- The first render's state with `nullIdRow` as the only listed row. -/
def nullIdListed : Component :=
  { initial with todos := .arr [nullIdRow] }

/-- A backend on which every request succeeds: the first with a text body,
the later ones with an empty list. -/
def happyBackend : Nat → HttpResult :=
  fun n => if n = 0 then .ok (.str "Todo with ID 1 deleted") else .ok (.arr [])

/-- A DELETE response body that is a JSON object, not a text. -/
def deletedReport : JsVal :=
  .obj [("message", .str "Todo deleted")]

/-- A backend on which every request succeeds and the first response body is
the object `deletedReport`. -/
def reportingBackend : Nat → HttpResult :=
  fun n => if n = 0 then .ok deletedReport else .ok (.arr [])

/-- A backend on which every request is rejected. -/
def deadBackend : Nat → HttpResult :=
  fun _ => .failed

/-- A backend whose first request succeeds and whose later ones are rejected. -/
def flakyBackend : Nat → HttpResult :=
  fun n => if n = 0 then .ok (.obj []) else .failed

/-! ## Unfolding the handler monad -/

section Unfolding
variable {α β : Type}

@[simp] theorem pure_apply (a : α) (e : Env) (w : World) :
    (pure a : Handler α) e w = (.normal a, w) := rfl

@[simp] theorem bind_apply (x : Handler α) (f : α → Handler β) (e : Env) (w : World) :
    (x >>= f) e w =
      match x e w with
      | (.normal a, w1) => f a e w1
      | (.thrown, w1) => (.thrown, w1) := rfl

@[simp] theorem tryCatch_apply (body : Handler α) (handler : Unit → Handler α) (e : Env)
    (w : World) :
    (tryCatch body handler : Handler α) e w =
      match body e w with
      | (.normal a, w1) => (.normal a, w1)
      | (.thrown, w1) => handler () e w1 := rfl

@[simp] theorem modifyComp_apply (f : Component → Component) (e : Env) (w : World) :
    modifyComp f e w = (.normal (), { w with comp := f w.comp }) := rfl

@[simp] theorem getProps_apply (e : Env) (w : World) :
    getProps e w = (.normal e.props, w) := rfl

@[simp] theorem baseUrl_apply (e : Env) (w : World) :
    baseUrl e w = (.normal (baseUrlOf e.config), w) := rfl

theorem axios_apply (m : Method) (url : String) (body : Option JsVal) (e : Env) (w : World) :
    axios m url body e w =
      match e.http w.sent.length with
      | .ok data => (.normal data, { w with sent := w.sent ++ [⟨m, url, body⟩] })
      | .failed => (.thrown, { w with sent := w.sent ++ [⟨m, url, body⟩] }) := rfl

theorem run_eq (h : Handler Unit) (config : JsVal) (http : Nat → HttpResult) (c : Component) :
    run h config http c =
      { completion := (h ⟨config, c, http⟩ ⟨c, []⟩).1
        state := (h ⟨config, c, http⟩ ⟨c, []⟩).2.comp
        requests := (h ⟨config, c, http⟩ ⟨c, []⟩).2.sent } := rfl

end Unfolding

/-! ## What each handler does -/

theorem fetchAllTodos_apply (e : Env) (w : World) :
    fetchAllTodos e w =
      (.normal (),
        { comp :=
            match e.http w.sent.length with
            | .ok data => { w.comp with todos := data.orElse (.arr []), message := .str "" }
            | .failed => { w.comp with message := .str "Failed to fetch todos." }
          sent := w.sent ++ [⟨.GET, baseUrlOf e.config ++ "/all", none⟩] }) := by
  simp only [fetchAllTodos, tryCatch_apply, bind_apply, baseUrl_apply, axios_apply, setTodos,
    setMessage, modifyComp_apply]
  cases e.http w.sent.length <;> rfl

theorem validateForm_apply (e : Env) (w : World) :
    validateForm e w =
      if titleMissing e.props.todo.title then
        (.normal false,
          { w with comp := { w.comp with message := .str "Please fill out the title field." } })
      else (.normal true, w) := by
  simp only [validateForm, bind_apply, getProps_apply, setMessage]
  split <;> rfl

theorem resetForm_apply (e : Env) (w : World) :
    resetForm e w =
      (.normal (),
        { w with comp := { w.comp with todo := emptyDraft, editMode := false,
                                       message := .str "" } }) := rfl

theorem addTodo_apply (e : Env) (w : World) :
    addTodo e w =
      if titleMissing e.props.todo.title then
        (.normal (),
          { w with comp := { w.comp with message := .str "Please fill out the title field." } })
      else
        match e.http w.sent.length with
        | .failed =>
          (.normal (),
            { comp := { w.comp with message := .str "Error adding todo." }
              sent := w.sent ++
                [⟨.POST, baseUrlOf e.config ++ "/add", some (addPayload e.props.todo)⟩] })
        | .ok _ =>
          (.normal (),
            { comp :=
                match e.http (w.sent.length + 1) with
                | .ok data =>
                  { w.comp with todos := data.orElse (.arr []), todo := emptyDraft,
                                editMode := false, message := .str "" }
                | .failed =>
                  { w.comp with todo := emptyDraft, editMode := false, message := .str "" }
              sent := w.sent ++
                [⟨.POST, baseUrlOf e.config ++ "/add", some (addPayload e.props.todo)⟩,
                 ⟨.GET, baseUrlOf e.config ++ "/all", none⟩] }) := by
  simp only [addTodo, bind_apply, validateForm_apply, tryCatch_apply, getProps_apply,
    baseUrl_apply, axios_apply, fetchAllTodos_apply, resetForm_apply, setMessage,
    modifyComp_apply]
  by_cases hv : titleMissing e.props.todo.title = true
  · simp [hv]
  · cases h0 : e.http w.sent.length with
    | failed =>
      simp [hv, h0, axios_apply, setMessage]
    | ok d =>
      cases h1 : e.http (w.sent.length + 1) <;>
        simp [hv, h0, h1, axios_apply, fetchAllTodos_apply, resetForm_apply, setMessage,
          emptyDraft]

theorem updateTodo_apply (e : Env) (w : World) :
    updateTodo e w =
      if titleMissing e.props.todo.title then
        (.normal (),
          { w with comp := { w.comp with message := .str "Please fill out the title field." } })
      else
        match e.http w.sent.length with
        | .failed =>
          (.normal (),
            { comp := { w.comp with message := .str "Error updating todo." }
              sent := w.sent ++
                [⟨.PUT, baseUrlOf e.config ++ "/update", some e.props.todo.toJs⟩] })
        | .ok _ =>
          (.normal (),
            { comp :=
                match e.http (w.sent.length + 1) with
                | .ok data =>
                  { w.comp with todos := data.orElse (.arr []), todo := emptyDraft,
                                editMode := false, message := .str "" }
                | .failed =>
                  { w.comp with todo := emptyDraft, editMode := false, message := .str "" }
              sent := w.sent ++
                [⟨.PUT, baseUrlOf e.config ++ "/update", some e.props.todo.toJs⟩,
                 ⟨.GET, baseUrlOf e.config ++ "/all", none⟩] }) := by
  simp only [updateTodo, bind_apply, validateForm_apply, tryCatch_apply, getProps_apply,
    baseUrl_apply, axios_apply, fetchAllTodos_apply, resetForm_apply, setMessage,
    modifyComp_apply]
  by_cases hv : titleMissing e.props.todo.title = true
  · simp [hv]
  · cases h0 : e.http w.sent.length with
    | failed =>
      simp [hv, h0, axios_apply, setMessage]
    | ok d =>
      cases h1 : e.http (w.sent.length + 1) <;>
        simp [hv, h0, h1, axios_apply, fetchAllTodos_apply, resetForm_apply, setMessage,
          emptyDraft]

theorem deleteTodo_apply (id : JsVal) (e : Env) (w : World) :
    deleteTodo id e w =
      match e.http w.sent.length with
      | .failed =>
        (.normal (),
          { comp := { w.comp with message := .str "Error deleting todo." }
            sent := w.sent ++
              [⟨.DELETE, baseUrlOf e.config ++ "/delete/" ++ id.toStr, none⟩] })
      | .ok _ =>
        (.normal (),
          { comp :=
              match e.http (w.sent.length + 1) with
              | .ok data => { w.comp with todos := data.orElse (.arr []), message := .str "" }
              | .failed => { w.comp with message := .str "Failed to fetch todos." }
            sent := w.sent ++
              [⟨.DELETE, baseUrlOf e.config ++ "/delete/" ++ id.toStr, none⟩,
               ⟨.GET, baseUrlOf e.config ++ "/all", none⟩] }) := by
  simp only [deleteTodo, bind_apply, tryCatch_apply, baseUrl_apply, axios_apply,
    fetchAllTodos_apply, setMessage, modifyComp_apply]
  cases h0 : e.http w.sent.length with
  | failed => simp [h0]
  | ok d =>
    cases h1 : e.http (w.sent.length + 1) <;> simp [h0, h1]

theorem deleteTodoPending_apply (id : JsVal) (e : Env) (w : World) :
    deleteTodoPending id e w =
      (.normal (),
        { comp :=
            match e.http w.sent.length with
            | .ok data => { w.comp with message := data.orElse (.str "Todo deleted.") }
            | .failed => { w.comp with message := .str "Error deleting todo." }
          sent := w.sent ++
            [⟨.DELETE, baseUrlOf e.config ++ "/delete/" ++ id.toStr, none⟩] }) := by
  simp only [deleteTodoPending, bind_apply, tryCatch_apply, baseUrl_apply, setMessage,
    modifyComp_apply]
  cases h0 : e.http w.sent.length <;> simp [h0, axios_apply]

/-- After a successful DELETE, `deleteTodo` is `deleteTodoPending` followed by
the reload; after a rejected one the two coincide. -/
theorem deleteTodo_resumes_pending (id : JsVal) (e : Env) (w : World) :
    deleteTodo id e w =
      match e.http w.sent.length with
      | .ok _ => fetchAllTodos e (deleteTodoPending id e w).2
      | .failed => deleteTodoPending id e w := by
  rw [deleteTodo_apply, deleteTodoPending_apply, fetchAllTodos_apply]
  cases h0 : e.http w.sent.length with
  | failed => simp
  | ok d =>
    cases h1 : e.http (w.sent.length + 1) <;> simp [h1]

theorem getTodoById_apply (e : Env) (w : World) :
    getTodoById e w =
      if e.props.idToFetch = "" then
        (.normal (),
          { w with comp := { w.comp with message := .str "Please enter an ID to fetch." } })
      else
        (.normal (),
          { comp :=
              match e.http w.sent.length with
              | .ok data => { w.comp with fetchedTodo := data, message := .str "" }
              | .failed => { w.comp with fetchedTodo := .null, message := .str "Todo not found." }
            sent := w.sent ++
              [⟨.GET, baseUrlOf e.config ++ "/get/" ++ e.props.idToFetch, none⟩] }) := by
  simp only [getTodoById, bind_apply, tryCatch_apply, getProps_apply, baseUrl_apply,
    axios_apply, setMessage, setFetchedTodo, modifyComp_apply]
  by_cases hid : e.props.idToFetch = ""
  · simp [hid]
  · cases h0 : e.http w.sent.length <;> simp [hid, h0, axios_apply]

theorem handleEdit_apply (t : JsVal) (e : Env) (w : World) :
    handleEdit t e w =
      (.normal (),
        { w with comp :=
            { w.comp with
              todo :=
                { id := ((t.prop "id").coalesce (t.prop "_id")).coalesce (.str "")
                  title := (t.prop "title").coalesce (.str "")
                  description := (t.prop "description").coalesce (.str "")
                  completed := (t.prop "completed").truthy }
              editMode := true
              message := .str ("Editing todo with ID " ++
                (((t.prop "id").coalesce (t.prop "_id")).coalesce (.str "")).toStr) } }) := rfl

/-! ## Strings -/

theorem trimChars_eq_nil (l : List Char) :
    trimChars l = [] ↔ ∀ ch ∈ l, isWhiteSpace ch = true := by
  unfold trimChars
  rw [List.reverse_eq_nil_iff, List.dropWhile_eq_nil_iff]
  constructor
  · intro h
    cases hd : l.dropWhile isWhiteSpace with
    | nil => exact List.dropWhile_eq_nil_iff.mp hd
    | cons x xs =>
      have hx : isWhiteSpace x = true := h x (by simp [hd])
      have hhead := List.head_dropWhile_not isWhiteSpace l (by simp [hd])
      simp [hd, hx] at hhead
  · intro h
    have hd : l.dropWhile isWhiteSpace = [] := List.dropWhile_eq_nil_iff.mpr h
    simp [hd]

theorem titleMissing_str (s : String) :
    titleMissing (.str s) = true ↔ ∀ ch ∈ s.data, isWhiteSpace ch = true := by
  have htrim : trim s = "" ↔ trimChars s.data = [] := by
    unfold trim
    constructor
    · intro h
      exact congrArg String.data h
    · intro h
      rw [h]
  simp only [titleMissing, JsVal.truthy, JsVal.toStr, Bool.or_eq_true, Bool.not_eq_true',
    bne_eq_false_iff_eq, beq_iff_eq, htrim, trimChars_eq_nil]
  constructor
  · rintro (h | h)
    · subst h
      intro ch hch
      simp at hch
    · exact h
  · intro h
    exact Or.inr h

theorem includes_iff (s sub : String) :
    includes s sub = true ↔ sub.data <:+: s.data := by
  unfold includes
  rw [List.any_eq_true]
  constructor
  · rintro ⟨t, ht, hp⟩
    rw [List.mem_tails] at ht
    rw [List.isPrefixOf_iff_prefix] at hp
    exact List.IsInfix.trans hp.isInfix ht.isInfix
  · rintro ⟨a, b, hab⟩
    refine ⟨sub.data ++ b, ?_, ?_⟩
    · rw [List.mem_tails]
      exact ⟨a, by rw [← hab, List.append_assoc]⟩
    · rw [List.isPrefixOf_iff_prefix]
      exact List.prefix_append _ _

theorem titleMissing_of_nonblank (s : String)
    (h : ∃ ch ∈ s.data, isWhiteSpace ch = false) : titleMissing (.str s) = false := by
  cases hm : titleMissing (.str s) with
  | false => rfl
  | true =>
    obtain ⟨ch, hch, hws⟩ := h
    have := (titleMissing_str s).mp hm ch hch
    simp [hws] at this

/-! ## The claims -/

/-- C1. When the draft title is a string that is empty or holds only white
space, `addTodo` and `updateTodo` issue no request, set the message to
'Please fill out the title field.' and leave every other cell of the state
(todo list, draft, edit-mode flag, fetched item, lookup id) as it was. -/
theorem blank_title_blocks_submission (config : JsVal) (http : Nat → HttpResult)
    (c : Component) (s : String) (htitle : c.todo.title = .str s)
    (hblank : ∀ ch ∈ s.data, isWhiteSpace ch = true) :
    run addTodo config http c =
        { completion := .normal ()
          state := { c with message := .str "Please fill out the title field." }
          requests := [] } ∧
      run updateTodo config http c =
        { completion := .normal ()
          state := { c with message := .str "Please fill out the title field." }
          requests := [] } := by
  have hm : titleMissing c.todo.title = true := by
    rw [htitle]
    exact (titleMissing_str s).mpr hblank
  constructor
  · rw [run_eq, addTodo_apply]
    simp [hm]
  · rw [run_eq, updateTodo_apply]
    simp [hm]

theorem blank_title_blocks_submission_witness :
    (∀ ch ∈ (" \t " : String).data, isWhiteSpace ch = true) ∧
      run addTodo .undefined happyBackend blankDraft =
        { completion := .normal ()
          state := { blankDraft with message := .str "Please fill out the title field." }
          requests := [] } ∧
      run updateTodo .undefined happyBackend blankDraft =
        { completion := .normal ()
          state := { blankDraft with message := .str "Please fill out the title field." }
          requests := [] } :=
  ⟨by decide,
    blank_title_blocks_submission .undefined happyBackend blankDraft " \t " rfl (by decide)⟩

/-- C2. When the draft title is a string with a character that is not white
space and the first request of the run (the POST of `addTodo`, the PUT of
`updateTodo`) succeeds, then whatever the reload answers the final draft is
the empty draft, the edit-mode flag is false, and the run issued exactly one
`GET {base}/all`. -/
theorem successful_submit_resets_form (config : JsVal) (http : Nat → HttpResult)
    (c : Component) (s : String) (htitle : c.todo.title = .str s)
    (hnonblank : ∃ ch ∈ s.data, isWhiteSpace ch = false)
    (d : JsVal) (hsent : http 0 = .ok d) :
    ((run addTodo config http c).state.todo = emptyDraft ∧
        (run addTodo config http c).state.editMode = false ∧
        (run addTodo config http c).requests.countP (isReload config) = 1) ∧
      ((run updateTodo config http c).state.todo = emptyDraft ∧
        (run updateTodo config http c).state.editMode = false ∧
        (run updateTodo config http c).requests.countP (isReload config) = 1) := by
  have hm : titleMissing c.todo.title = false := by
    rw [htitle]
    exact titleMissing_of_nonblank s hnonblank
  constructor
  · rw [run_eq, addTodo_apply]
    cases h1 : http 1 <;> simp [hm, hsent, h1, isReload, List.countP_cons]
  · rw [run_eq, updateTodo_apply]
    cases h1 : http 1 <;> simp [hm, hsent, h1, isReload, List.countP_cons]

theorem successful_submit_resets_form_witness :
    (∃ ch ∈ ("Buy milk" : String).data, isWhiteSpace ch = false) ∧
      flakyBackend 0 = .ok (.obj []) ∧
      ((run addTodo .undefined flakyBackend typedDraft).state.todo = emptyDraft ∧
        (run addTodo .undefined flakyBackend typedDraft).state.editMode = false ∧
        (run addTodo .undefined flakyBackend typedDraft).requests.countP
          (isReload .undefined) = 1) ∧
      ((run updateTodo .undefined flakyBackend typedDraft).state.todo = emptyDraft ∧
        (run updateTodo .undefined flakyBackend typedDraft).state.editMode = false ∧
        (run updateTodo .undefined flakyBackend typedDraft).requests.countP
          (isReload .undefined) = 1) :=
  ⟨by decide, rfl,
    successful_submit_resets_form .undefined flakyBackend typedDraft "Buy milk" rfl
      (by decide) (.obj []) rfl⟩

/-- C3, as stated, fails: on a listed row whose `id` is present but `null`
the draft id is not the row's id (and not the id the sentence describes) but
the row's `_id`. -/
theorem handleEdit_null_id_takes_fallback :
    nullIdListed.todos = .arr [nullIdRow] ∧
      nullIdRow.prop "id" = .null ∧
      (run (handleEdit nullIdRow) .undefined deadBackend nullIdListed).state.todo.id =
        .str "65f0" ∧
      (run (handleEdit nullIdRow) .undefined deadBackend nullIdListed).state.todo.id ≠
        nullIdRow.prop "id" ∧
      (run (handleEdit nullIdRow) .undefined deadBackend nullIdListed).state.todo.id ≠
        statedEditId nullIdRow := by
  refine ⟨rfl, rfl, rfl, ?_, ?_⟩
  · intro h
    have h2 : (JsVal.str "65f0") = JsVal.null := h
    cases h2
  · intro h
    have h2 : (JsVal.str "65f0") = JsVal.null := h
    cases h2

/-- C3, amended. `handleEdit(t)` sets the draft id to `t.id` unless that is
missing or null, then to `t._id` unless that is missing or null, then to
`''`; sets the draft title and description to the row's, with `''` for a
missing or null one; sets `completed` to the boolean coercion of
`t.completed`; sets the edit-mode flag; issues no request and leaves the
todo list, the lookup id and the fetched item unchanged. -/
theorem handleEdit_populates_draft (config : JsVal) (http : Nat → HttpResult)
    (c : Component) (t : JsVal) :
    (¬ Nullish (t.prop "id") →
        (run (handleEdit t) config http c).state.todo.id = t.prop "id") ∧
      (Nullish (t.prop "id") → ¬ Nullish (t.prop "_id") →
        (run (handleEdit t) config http c).state.todo.id = t.prop "_id") ∧
      (Nullish (t.prop "id") → Nullish (t.prop "_id") →
        (run (handleEdit t) config http c).state.todo.id = .str "") ∧
      (¬ Nullish (t.prop "title") →
        (run (handleEdit t) config http c).state.todo.title = t.prop "title") ∧
      (Nullish (t.prop "title") →
        (run (handleEdit t) config http c).state.todo.title = .str "") ∧
      (¬ Nullish (t.prop "description") →
        (run (handleEdit t) config http c).state.todo.description = t.prop "description") ∧
      (Nullish (t.prop "description") →
        (run (handleEdit t) config http c).state.todo.description = .str "") ∧
      (run (handleEdit t) config http c).state.todo.completed = (t.prop "completed").truthy ∧
      (run (handleEdit t) config http c).state.editMode = true ∧
      (run (handleEdit t) config http c).state.todos = c.todos ∧
      (run (handleEdit t) config http c).state.idToFetch = c.idToFetch ∧
      (run (handleEdit t) config http c).state.fetchedTodo = c.fetchedTodo ∧
      (run (handleEdit t) config http c).requests = [] ∧
      (run (handleEdit t) config http c).completion = .normal () := by
  have keep : ∀ a b : JsVal, ¬ Nullish a → a.coalesce b = a := by
    intro a b h
    cases a <;> simp [Nullish, JsVal.coalesce] at h ⊢
  have drop : ∀ a b : JsVal, Nullish a → a.coalesce b = b := by
    intro a b h
    rcases h with h | h <;> subst h <;> rfl
  rw [run_eq, handleEdit_apply]
  refine ⟨?_, ?_, ?_, ?_, ?_, ?_, ?_, rfl, rfl, rfl, rfl, rfl, rfl, rfl⟩
  · intro h
    show ((t.prop "id").coalesce (t.prop "_id")).coalesce (.str "") = _
    rw [keep _ _ h, keep _ _ h]
  · intro h h2
    show ((t.prop "id").coalesce (t.prop "_id")).coalesce (.str "") = _
    rw [drop _ _ h, keep _ _ h2]
  · intro h h2
    show ((t.prop "id").coalesce (t.prop "_id")).coalesce (.str "") = _
    rw [drop _ _ h, drop _ _ h2]
  · intro h
    exact keep _ _ h
  · intro h
    exact drop _ _ h
  · intro h
    exact keep _ _ h
  · intro h
    exact drop _ _ h

theorem handleEdit_populates_draft_witness :
    Nullish (nullIdRow.prop "id") ∧ ¬ Nullish (nullIdRow.prop "_id") ∧
      (run (handleEdit nullIdRow) .undefined deadBackend nullIdListed).state.todo.id =
        .str "65f0" ∧
      (run (handleEdit nullIdRow) .undefined deadBackend nullIdListed).state.todo.title =
        .str "A" ∧
      (run (handleEdit nullIdRow) .undefined deadBackend nullIdListed).state.todo.description =
        .str "" ∧
      (run (handleEdit nullIdRow) .undefined deadBackend nullIdListed).state.todo.completed =
        true ∧
      (run (handleEdit nullIdRow) .undefined deadBackend nullIdListed).state.editMode = true ∧
      (run (handleEdit nullIdRow) .undefined deadBackend nullIdListed).state.todos =
        .arr [nullIdRow] := by
  have h := handleEdit_populates_draft .undefined deadBackend nullIdListed nullIdRow
  have hid : Nullish (nullIdRow.prop "id") := Or.inl rfl
  have hfb : ¬ Nullish (nullIdRow.prop "_id") := by
    intro hn
    rcases hn with hn | hn
    · have h2 : (JsVal.str "65f0") = JsVal.null := hn
      cases h2
    · have h2 : (JsVal.str "65f0") = JsVal.undefined := hn
      cases h2
  have htitle : ¬ Nullish (nullIdRow.prop "title") := by
    intro hn
    rcases hn with hn | hn
    · have h2 : (JsVal.str "A") = JsVal.null := hn
      cases h2
    · have h2 : (JsVal.str "A") = JsVal.undefined := hn
      cases h2
  exact ⟨hid, hfb, h.2.1 hid hfb, h.2.2.2.1 htitle, h.2.2.2.2.2.2.1 (Or.inr rfl),
    h.2.2.2.2.2.2.2.1, h.2.2.2.2.2.2.2.2.1, h.2.2.2.2.2.2.2.2.2.1⟩

/-- C4. With a non-empty lookup id, when the `GET {base}/get/{id}` of
`getTodoById` is rejected the fetched item becomes `null` whatever it was,
the message becomes 'Todo not found.', and the todo list, the draft, the
edit-mode flag and the lookup id are unchanged; that GET is the only request
and nothing is thrown. -/
theorem failed_lookup_clears_fetched (config : JsVal) (http : Nat → HttpResult)
    (c : Component) (hid : c.idToFetch ≠ "") (hfail : http 0 = .failed) :
    run getTodoById config http c =
      { completion := .normal ()
        state := { c with fetchedTodo := .null, message := .str "Todo not found." }
        requests := [⟨.GET, baseUrlOf config ++ "/get/" ++ c.idToFetch, none⟩] } := by
  rw [run_eq, getTodoById_apply]
  simp [hid, hfail]

theorem failed_lookup_clears_fetched_witness :
    blankDraft.idToFetch ≠ "" ∧ deadBackend 0 = .failed ∧
      run getTodoById .undefined deadBackend blankDraft =
        { completion := .normal ()
          state := { blankDraft with fetchedTodo := .null, message := .str "Todo not found." }
          requests := [⟨.GET, "/api/todoapi/get/1", none⟩] } :=
  ⟨by decide, rfl, failed_lookup_clears_fetched .undefined deadBackend blankDraft (by decide) rfl⟩

/-- C5. For every state and every value `t` (so for every row of its todo
list), `handleEdit(t)` followed by `resetForm` ends in Add mode with the
empty draft and the todo list of the state before the Edit click (the
message is cleared, the lookup id and fetched item are kept), and neither
step issues a request. -/
theorem edit_then_cancel_restores_add_mode (config : JsVal) (http http2 : Nat → HttpResult)
    (c : Component) (t : JsVal) :
    (run (handleEdit t) config http c).requests = [] ∧
      run resetForm config http2 (run (handleEdit t) config http c).state =
        { completion := .normal ()
          state := { c with todo := emptyDraft, editMode := false, message := .str "" }
          requests := [] } :=
  ⟨rfl, rfl⟩

/-- C6. When the form passes `validateForm` and the POST of `addTodo` (the
PUT of `updateTodo`) is rejected, and when the DELETE of `deleteTodo` is
rejected, the run completes normally, the rejected request is the only one
issued (no reload), and the state is the old state with only the message
replaced, by 'Error adding todo.', 'Error updating todo.' and
'Error deleting todo.' respectively. -/
theorem failed_mutation_changes_only_message (config : JsVal) (http : Nat → HttpResult)
    (c : Component) (id : JsVal) (hfail : http 0 = .failed) :
    (titleMissing c.todo.title = false →
        run addTodo config http c =
          { completion := .normal ()
            state := { c with message := .str "Error adding todo." }
            requests := [⟨.POST, baseUrlOf config ++ "/add", some (addPayload c.todo)⟩] }) ∧
      (titleMissing c.todo.title = false →
        run updateTodo config http c =
          { completion := .normal ()
            state := { c with message := .str "Error updating todo." }
            requests := [⟨.PUT, baseUrlOf config ++ "/update", some c.todo.toJs⟩] }) ∧
      run (deleteTodo id) config http c =
        { completion := .normal ()
          state := { c with message := .str "Error deleting todo." }
          requests := [⟨.DELETE, baseUrlOf config ++ "/delete/" ++ id.toStr, none⟩] } := by
  refine ⟨?_, ?_, ?_⟩
  · intro hm
    rw [run_eq, addTodo_apply]
    simp [hm, hfail]
  · intro hm
    rw [run_eq, updateTodo_apply]
    simp [hm, hfail]
  · rw [run_eq, deleteTodo_apply]
    simp [hfail]

theorem failed_mutation_changes_only_message_witness :
    deadBackend 0 = .failed ∧ titleMissing typedDraft.todo.title = false ∧
      run addTodo .undefined deadBackend typedDraft =
        { completion := .normal ()
          state := { typedDraft with message := .str "Error adding todo." }
          requests := [⟨.POST, "/api/todoapi/add",
            some (.obj [("title", .str "Buy milk"), ("description", .str ""),
              ("completed", .bool false)])⟩] } ∧
      run updateTodo .undefined deadBackend typedDraft =
        { completion := .normal ()
          state := { typedDraft with message := .str "Error updating todo." }
          requests := [⟨.PUT, "/api/todoapi/update",
            some (.obj [("id", .str ""), ("title", .str "Buy milk"), ("description", .str ""),
              ("completed", .bool false)])⟩] } ∧
      run (deleteTodo (.num "1e+21")) .undefined deadBackend typedDraft =
        { completion := .normal ()
          state := { typedDraft with message := .str "Error deleting todo." }
          requests := [⟨.DELETE, "/api/todoapi/delete/1e+21", none⟩] } :=
  have h := failed_mutation_changes_only_message .undefined deadBackend typedDraft (.num "1e+21") rfl
  ⟨rfl, rfl, h.1 rfl, h.2.1 rfl, h.2.2⟩

/-- The success message of `addTodo` and `updateTodo` never outlives the run:
once the mutation request has succeeded the final message is `''`, whatever
the reload answers. -/
theorem submit_success_message_is_cleared (config : JsVal) (http : Nat → HttpResult)
    (c : Component) (d : JsVal) (hm : titleMissing c.todo.title = false)
    (hsent : http 0 = .ok d) :
    (run addTodo config http c).state.message = .str "" ∧
      (run updateTodo config http c).state.message = .str "" := by
  constructor
  · rw [run_eq, addTodo_apply]
    cases h1 : http 1 <;> simp [hm, hsent, h1]
  · rw [run_eq, updateTodo_apply]
    cases h1 : http 1 <;> simp [hm, hsent, h1]

/-- C7 fails on the code. With the title 'Buy milk' typed in and a backend
on which every request succeeds, `addTodo`, `updateTodo` and `deleteTodo`
all run to completion with their two requests issued, and the final message
is `''` each time: not 'Todo added successfully.', not
'Todo updated successfully.', and not the body of the DELETE response. -/
theorem success_message_lost_after_reload :
    run addTodo .undefined happyBackend typedDraft =
        { completion := .normal ()
          state := { typedDraft with todo := emptyDraft, message := .str "" }
          requests :=
            [⟨.POST, "/api/todoapi/add",
                some (.obj [("title", .str "Buy milk"), ("description", .str ""),
                  ("completed", .bool false)])⟩,
              ⟨.GET, "/api/todoapi/all", none⟩] } ∧
      (run addTodo .undefined happyBackend typedDraft).state.message ≠
        .str "Todo added successfully." ∧
      (run updateTodo .undefined happyBackend typedDraft).completion = .normal () ∧
      (run updateTodo .undefined happyBackend typedDraft).state.message = .str "" ∧
      (run updateTodo .undefined happyBackend typedDraft).state.message ≠
        .str "Todo updated successfully." ∧
      happyBackend 0 = .ok (.str "Todo with ID 1 deleted") ∧
      run (deleteTodo (.num "1")) .undefined happyBackend typedDraft =
        { completion := .normal ()
          state := { typedDraft with message := .str "" }
          requests :=
            [⟨.DELETE, "/api/todoapi/delete/1", none⟩, ⟨.GET, "/api/todoapi/all", none⟩] } ∧
      (run (deleteTodo (.num "1")) .undefined happyBackend typedDraft).state.message ≠
        .str "Todo with ID 1 deleted" := by
  refine ⟨rfl, ?_, rfl, rfl, ?_, rfl, rfl, ?_⟩
  · intro h
    have h2 : JsVal.str "" = JsVal.str "Todo added successfully." := h
    exact absurd (JsVal.str.inj h2) (by decide)
  · intro h
    have h2 : JsVal.str "" = JsVal.str "Todo updated successfully." := h
    exact absurd (JsVal.str.inj h2) (by decide)
  · intro h
    have h2 : JsVal.str "" = JsVal.str "Todo with ID 1 deleted" := h
    exact absurd (JsVal.str.inj h2) (by decide)

/-- C8. `fetchAllTodos` issues exactly one request, `GET {base}/all`, and
completes normally. When the request succeeds the todo list becomes the
response data, or the empty list when the data is falsy, and the message
becomes `''`; when it is rejected the message becomes
'Failed to fetch todos.' and the todo list is the one held before, so a list
remains a list. In both cases the draft, the edit-mode flag, the fetched
item and the lookup id are unchanged. -/
theorem fetchAllTodos_replaces_list (config : JsVal) (http : Nat → HttpResult)
    (c : Component) :
    (run fetchAllTodos config http c).requests = [⟨.GET, baseUrlOf config ++ "/all", none⟩] ∧
      (run fetchAllTodos config http c).completion = .normal () ∧
      (∀ data, http 0 = .ok data → data.truthy = true →
        (run fetchAllTodos config http c).state = { c with todos := data, message := .str "" }) ∧
      (∀ data, http 0 = .ok data → data.truthy = false →
        (run fetchAllTodos config http c).state =
          { c with todos := .arr [], message := .str "" }) ∧
      (http 0 = .failed →
        (run fetchAllTodos config http c).state =
            { c with message := .str "Failed to fetch todos." } ∧
          ∀ rows, c.todos = .arr rows →
            (run fetchAllTodos config http c).state.todos = .arr rows) := by
  rw [run_eq, fetchAllTodos_apply]
  refine ⟨rfl, rfl, ?_, ?_, ?_⟩
  · intro data h ht
    simp [h, JsVal.orElse, ht]
  · intro data h ht
    simp [h, JsVal.orElse, ht]
  · intro h
    simp [h]

theorem fetchAllTodos_replaces_list_witness :
    (run fetchAllTodos .undefined (fun _ => .ok listedRows) blankDraft).state =
        { blankDraft with todos := listedRows, message := .str "" } ∧
      (run fetchAllTodos .undefined (fun _ => .ok .null) blankDraft).state =
        { blankDraft with todos := .arr [], message := .str "" } ∧
      (run fetchAllTodos .undefined deadBackend blankDraft).state =
        { blankDraft with message := .str "Failed to fetch todos." } :=
  ⟨(fetchAllTodos_replaces_list .undefined (fun _ => .ok listedRows) blankDraft).2.2.1
      listedRows rfl rfl,
    (fetchAllTodos_replaces_list .undefined (fun _ => .ok .null) blankDraft).2.2.2.1 .null
      rfl rfl,
    ((fetchAllTodos_replaces_list .undefined deadBackend blankDraft).2.2.2.2 rfl).1⟩

/-- C9. When the draft title is a string with a character that is not white
space, the requests of `addTodo` hold exactly one POST, sent to
`{base}/add`; its body has the fields `title`, `description` and `completed`
with the draft's values, followed by the field `id` with the draft's id when
that id is neither `''` nor `null`, and no `id` field (and no other field)
otherwise. -/
theorem addTodo_posts_the_draft (config : JsVal) (http : Nat → HttpResult)
    (c : Component) (s : String) (htitle : c.todo.title = .str s)
    (hnonblank : ∃ ch ∈ s.data, isWhiteSpace ch = false) :
    ∃ body,
      (run addTodo config http c).requests.filter (hasMethod .POST) =
          [⟨.POST, baseUrlOf config ++ "/add", some body⟩] ∧
        (c.todo.id ≠ .str "" ∧ c.todo.id ≠ .null →
          body = .obj [("title", c.todo.title), ("description", c.todo.description),
            ("completed", .bool c.todo.completed), ("id", c.todo.id)] ∧
          body.prop "id" = c.todo.id) ∧
        (c.todo.id = .str "" ∨ c.todo.id = .null →
          body = .obj [("title", c.todo.title), ("description", c.todo.description),
            ("completed", .bool c.todo.completed)] ∧
          ∀ fields, body = .obj fields → fields.lookup "id" = none) := by
  have hm : titleMissing c.todo.title = false := by
    rw [htitle]
    exact titleMissing_of_nonblank s hnonblank
  refine ⟨addPayload c.todo, ?_, ?_, ?_⟩
  · rw [run_eq, addTodo_apply]
    cases h0 : http 0 <;> simp [hm, h0, hasMethod, List.filter_cons]
  · rintro ⟨h1, h2⟩
    have hp : addPayload c.todo =
        .obj [("title", c.todo.title), ("description", c.todo.description),
          ("completed", .bool c.todo.completed), ("id", c.todo.id)] := by
      unfold addPayload
      split
      · rename_i heq
        exact absurd heq h1
      · rename_i heq
        exact absurd heq h2
      · rfl
    refine ⟨hp, ?_⟩
    rw [hp]
    simp [JsVal.prop, List.lookup]
  · intro h
    have hp : addPayload c.todo =
        .obj [("title", c.todo.title), ("description", c.todo.description),
          ("completed", .bool c.todo.completed)] := by
      unfold addPayload
      rcases h with h | h <;> rw [h] <;> rfl
    refine ⟨hp, ?_⟩
    intro fields hf
    rw [hp] at hf
    cases hf
    rfl

theorem addTodo_posts_the_draft_witness :
    (∃ ch ∈ ("Buy milk" : String).data, isWhiteSpace ch = false) ∧
      ∃ body,
        (run addTodo .undefined happyBackend typedDraft).requests.filter (hasMethod .POST) =
            [⟨.POST, "/api/todoapi/add", some body⟩] ∧
          body = .obj [("title", .str "Buy milk"), ("description", .str ""),
            ("completed", .bool false)] := by
  refine ⟨by decide, ?_⟩
  obtain ⟨body, h1, _, h3⟩ :=
    addTodo_posts_the_draft .undefined happyBackend typedDraft "Buy milk" rfl (by decide)
  exact ⟨body, h1, (h3 (Or.inl rfl)).1⟩

/-- C10, as stated, fails: when the DELETE answers with a JSON object,
`deleteTodo` stores that object as the message (line 80) and the state
rendered while the reload is pending has a message that is non-empty, yet no
banner is rendered, styled 'error' or 'success': evaluating the banner
throws, the object having no `toLowerCase`. -/
theorem banner_throws_on_object_message :
    (run (deleteTodoPending (.num "1")) .undefined reportingBackend typedDraft).state.message =
        deletedReport ∧
      deletedReport.truthy = true ∧
      deletedReport ≠ .str "" ∧
      messageBanner
          (run (deleteTodoPending (.num "1")) .undefined reportingBackend typedDraft).state.message =
        .thrown ∧
      ¬ ∃ b,
        messageBanner
            (run (deleteTodoPending (.num "1")) .undefined reportingBackend
              typedDraft).state.message =
          .normal (some b) := by
  refine ⟨rfl, rfl, ?_, rfl, ?_⟩
  · intro h
    have h2 : JsVal.obj [("message", .str "Todo deleted")] = JsVal.str "" := h
    cases h2
  · rintro ⟨b, hb⟩
    have h2 : (Completion.thrown : Completion (Option Banner)) = .normal (some b) := hb
    cases h2

/-- C10, amended. When the message is a string, the banner is rendered
exactly when the message is not `''`, with the message as its text; its
style is 'error' exactly when 'error' is a substring of the lower-cased
message and 'success' otherwise. 'Failed to fetch todos.', 'Todo not found.'
and 'Please fill out the title field.' are styled 'success'; 'Error adding
todo.', 'Error updating todo.' and 'Error deleting todo.' are styled
'error'. -/
theorem banner_shown_and_styled (message : String) :
    ((∃ b, messageBanner (.str message) = .normal (some b)) ↔ message ≠ "") ∧
      (message ≠ "" →
        messageBanner (.str message) =
          .normal (some { className := "message-banner " ++ bannerStyle message,
                          text := message })) ∧
      (bannerStyle message = "error" ↔
        ("error" : String).data <:+: (toLowerCase message).data) ∧
      (bannerStyle message = "success" ↔
        ¬ ("error" : String).data <:+: (toLowerCase message).data) ∧
      bannerStyle "Failed to fetch todos." = "success" ∧
      bannerStyle "Todo not found." = "success" ∧
      bannerStyle "Please fill out the title field." = "success" ∧
      bannerStyle "Error adding todo." = "error" ∧
      bannerStyle "Error updating todo." = "error" ∧
      bannerStyle "Error deleting todo." = "error" := by
  have hstyle : ∀ m : String, bannerStyle m =
      if ("error" : String).data <:+: (toLowerCase m).data then "error" else "success" := by
    intro m
    unfold bannerStyle
    by_cases h : includes (toLowerCase m) "error" = true
    · rw [if_pos h, if_pos ((includes_iff _ _).mp h)]
    · rw [if_neg h, if_neg (fun h2 => h ((includes_iff _ _).mpr h2))]
  refine ⟨?_, ?_, ?_, ?_, rfl, rfl, rfl, rfl, rfl, rfl⟩
  · by_cases hs : message = ""
    · subst hs
      simp [messageBanner, JsVal.truthy]
    · simp [messageBanner, JsVal.truthy, hs]
  · intro hs
    simp [messageBanner, JsVal.truthy, hs]
  · rw [hstyle]
    by_cases h : ("error" : String).data <:+: (toLowerCase message).data
    · simp [h]
    · simp [h]
  · rw [hstyle]
    by_cases h : ("error" : String).data <:+: (toLowerCase message).data
    · simp [h]
    · simp [h]

theorem banner_shown_and_styled_witness :
    messageBanner (.str "Error adding todo.") =
        .normal (some { className := "message-banner error", text := "Error adding todo." }) ∧
      messageBanner (.str "Failed to fetch todos.") =
        .normal (some { className := "message-banner success",
                        text := "Failed to fetch todos." }) :=
  ⟨(banner_shown_and_styled "Error adding todo.").2.1 (by decide),
    (banner_shown_and_styled "Failed to fetch todos.").2.1 (by decide)⟩

end TodoApp
